import Mathlib

/-
Shallow embedding of the resolve DNS resolver pool (src/resolvers.go).

Stateful Go code is embedded as pure state-transition functions.  Every
side effect on a request (a send on its result channel, a write on the
wire, a return to the reuse pool, a spawned reliable-transport retry) is
recorded as an explicit event, so that claims about delivery counts can
be stated as theorems about event lists.  Machine integers are Nat and
Int; time is measured in integer nanoseconds.
-/

set_option autoImplicit false
set_option maxRecDepth 4000

namespace Resolve

/-- One DNS question: a query name and a query type. -/
structure Question where
  name : String
  qtype : Nat
  deriving DecidableEq

/-- A DNS message, restricted to the fields the pool reads or writes:
transaction id, question section, the truncation flag, the result code
and an abstract answer section. -/
structure Msg where
  id : Nat
  question : List Question
  truncated : Bool
  rcode : Nat
  answer : List Nat
  deriving DecidableEq

/-- Modelled from the spec: the distinguished no-response result code
used for every synthesized failure (the concrete numeric value lives in
a file of the repository outside src/). -/
def RcodeNoResponse : Nat := 50

/-- Modelled from the spec: the query name is stored without the
trailing root label, so the helper strips one trailing dot (written over
the character list of the string). -/
def RemoveLastDot (s : String) : String :=
  if s.data.getLast? = some '.' then String.mk s.data.dropLast else s

/-- Modelled from the spec: a Request carries the caller context (here a
cancellation flag), the transaction id, the query name without the
trailing root label, the query type and the outbound message; its result
channel is represented by delivery events. -/
structure Request where
  ctxCanceled : Bool
  id : Nat
  name : String
  qtype : Nat
  msg : Msg
  deriving DecidableEq

/-- Observable effects of one step of the system on requests, the wire
and the connection. -/
inductive REvent where
  | wrote (m : Msg)
  | delivered (req : Request) (m : Msg)
  | failedNoResponse (req : Request)
  | released (req : Request)
  | spawnedTcp (req : Request)
  deriving DecidableEq

/-- True exactly on the two terminal actions on the result channel of
the given request: a real delivery or a synthesized no-response. -/
def isTerminalFor (req : Request) : REvent → Bool
  | REvent.delivered q _ => if q = req then true else false
  | REvent.failedNoResponse q => if q = req then true else false
  | _ => false

/-- Number of terminal deliveries performed for the given request in a
list of events. -/
def reqDeliveries (req : Request) (evs : List REvent) : Nat :=
  (evs.filter (isTerminalFor req)).length

/-- Number of send attempts (writes of a query message on the wire) in a
list of events. -/
def writeCount (evs : List REvent) : Nat :=
  (evs.filter fun e => match e with | REvent.wrote _ => true | _ => false).length

/-- Occurrences of a request in a list of requests. -/
def countReq (req : Request) (l : List Request) : Nat :=
  (l.filter fun q => if q = req then true else false).length

/-- Modelled from the spec: the exchange-table key is the transaction id
together with the query name without the trailing root label. -/
def xchgKey (id : Nat) (name : String) : Nat × String :=
  (id, RemoveLastDot name)

/-- Modelled from the spec: an exchange-table entry holds the in-flight
Request and an expiry deadline (absent until the timestamp is set after
a successful send). -/
structure XchgEntry where
  req : Request
  deadline : Option Int
  deriving DecidableEq

/-- Modelled from the spec: the per-endpoint Exchange Table, a map from
(transaction id, query name) to an in-flight entry, with the configured
exchange timeout. -/
structure XchgMgr where
  timeout : Int
  xchgs : List ((Nat × String) × XchgEntry)
  deriving DecidableEq

/-- Modelled from the spec: insertion fails (returns none) when a live
entry with the same key is still present, and in that case the table is
left unchanged; otherwise the new entry is recorded with no deadline
yet. -/
def XchgMgr.add (x : XchgMgr) (req : Request) : Option XchgMgr :=
  match x.xchgs.find? (fun p => decide (p.1 = xchgKey req.id req.name)) with
  | some _ => none
  | none =>
    some { x with xchgs := x.xchgs ++ [(xchgKey req.id req.name, { req := req, deadline := none })] }

/-- Modelled from the spec: sets the expiry deadline of the entry under
the given key to now plus the configured timeout. -/
def XchgMgr.updateTimestamp (x : XchgMgr) (id : Nat) (name : String) (now : Int) : XchgMgr :=
  { x with xchgs := x.xchgs.map fun p =>
      if p.1 = xchgKey id name then (p.1, { p.2 with deadline := some (now + x.timeout) }) else p }

/-- Modelled from the spec: removes and returns the entry under the
given key; when no entry matches, the table is unchanged and none is
returned. -/
def XchgMgr.remove (x : XchgMgr) (id : Nat) (name : String) : Option Request × XchgMgr :=
  match x.xchgs.find? (fun p => decide (p.1 = xchgKey id name)) with
  | none => (none, x)
  | some p =>
    (some p.2.req, { x with xchgs := x.xchgs.filter fun q => ! decide (q.1 = xchgKey id name) })

/-- Whether an entry is past its deadline at the given time. -/
def isExpired (e : XchgEntry) (now : Int) : Bool :=
  match e.deadline with
  | some d => decide (d < now)
  | none => false

/-- Modelled from the spec: removes and returns every entry past its
deadline. -/
def XchgMgr.removeExpired (x : XchgMgr) (now : Int) : List Request × XchgMgr :=
  ((x.xchgs.filter fun p => isExpired p.2 now).map fun p => p.2.req,
   { x with xchgs := x.xchgs.filter fun p => ! isExpired p.2 now })

/-- Modelled from the spec: removes and returns every entry, used by the
stop-and-drain sequence. -/
def XchgMgr.removeAll (x : XchgMgr) : List Request × XchgMgr :=
  (x.xchgs.map fun p => p.2.req, { x with xchgs := [] })

/-- Modelled from the spec: replaces the configured exchange timeout. -/
def XchgMgr.setTimeout (x : XchgMgr) (d : Int) : XchgMgr :=
  { x with timeout := d }

/-- One resolver endpoint: shutdown flag (the done channel), per-endpoint
send queue, Exchange Table, address, configured rate, inter-send
interval, next eligible send time and cumulative statistics counter
(src/resolvers.go, struct resolver). -/
structure resolver where
  done : Bool
  xchgQueue : List Request
  xchgs : XchgMgr
  address : String
  qps : Int
  inc : Int
  next : Int
  statsCount : Nat
  deriving DecidableEq

/-- The pool of resolvers: shutdown flag, set of known addresses, the
active endpoints, the ingress queue, aggregate rate, whether an explicit
maximum rate was set, default timeout, optional detector endpoint and
whether the selector was released (src/resolvers.go, struct Resolvers). -/
structure Resolvers where
  done : Bool
  rmap : List String
  pool : List resolver
  queue : List Request
  qps : Int
  maxSet : Bool
  timeout : Int
  detector : Option resolver
  selClosed : Bool
  deriving DecidableEq

/-- Modelled from the spec: the default exchange timeout the pool starts
with (the constant lives outside src/; the value is two seconds in
nanoseconds). -/
def DefaultTimeout : Int := 2000000000

/-- NewResolvers (src/resolvers.go line 51): the initial pool state. -/
def NewResolvers : Resolvers :=
  { done := false, rmap := [], pool := [], queue := [], qps := 0, maxSet := false,
    timeout := DefaultTimeout, detector := none, selClosed := false }

/-- Resolvers.Query (src/resolvers.go line 172).  A nil message is sent
back on the channel unchanged.  When the caller context is already
canceled or the pool is shut down, the message comes back with the
no-response code and nothing is queued.  Otherwise the first question is
read (none = index-out-of-range panic when the question section is
empty) and a Request is appended to the ingress queue.  The returned
value is the new pool state together with the messages sent on the
result channel. -/
def Resolvers.Query (r : Resolvers) (ctxCanceled : Bool) (msg : Option Msg) :
    Option (Resolvers × List (Option Msg)) :=
  match msg with
  | none => some (r, [none])
  | some m =>
    if ctxCanceled || r.done then
      some (r, [some { m with rcode := RcodeNoResponse }])
    else
      match m.question with
      | [] => none
      | q :: _ =>
        some ({ r with queue := r.queue ++
                 [{ ctxCanceled := ctxCanceled, id := m.id, name := RemoveLastDot q.name,
                    qtype := q.qtype, msg := m }] }, [])

/-- What the blocking caller observes after submitting: either its
context ended first, or a result arrived on the channel. -/
inductive BlockOutcome where
  | ctxExpired
  | received (resp : Option Msg)
  deriving DecidableEq

/-- The two error values QueryBlocking can return. -/
inductive QueryError where
  | contextExpired
  | queryFailed
  deriving DecidableEq

/-- Resolvers.QueryBlocking (src/resolvers.go line 206): when the caller
context is already done at entry, or ends before a result arrives, the
original message is returned with the context-expired error; when a
result arrives, a nil response yields the query-failed error and any
other response is returned with no error. -/
def Resolvers.QueryBlocking (ctxCanceledAtStart : Bool) (msg : Option Msg)
    (outcome : BlockOutcome) : Option Msg × Option QueryError :=
  if ctxCanceledAtStart then (msg, some QueryError.contextExpired)
  else
    match outcome with
    | BlockOutcome.ctxExpired => (msg, some QueryError.contextExpired)
    | BlockOutcome.received resp =>
      match resp with
      | none => (none, some QueryError.queryFailed)
      | some x => (some x, none)

/-- The port-defaulting step of initializeResolver (src/resolvers.go
line 295): an address without an explicit port gets the well-known DNS
port appended (written over the character list of the string). -/
def addDefaultPort (addr : String) : String :=
  if addr.data.any (fun ch => ch = ':') then addr else addr ++ ":53"

/-- initializeResolver (src/resolvers.go line 294).  Dialing the
connection is a capability of the environment, abstracted by the dialOk
oracle; on success a fresh endpoint is built with inter-send interval
one second divided by the rate. -/
def initializeResolver (dialOk : String → Bool) (timeout : Int) (now : Int)
    (addr : String) (qps : Int) : Option resolver :=
  let a := addDefaultPort addr
  if dialOk a then
    some { done := false, xchgQueue := [], xchgs := { timeout := timeout, xchgs := [] },
           address := a, qps := qps, inc := 1000000000 / qps, next := now, statsCount := 0 }
  else none

/-- The body of the loop of AddResolvers for one address: duplicates by
address are skipped, and when the dial succeeds the endpoint is added
and, unless an explicit maximum rate was set, the aggregate rate grows
by the endpoint rate. -/
def addOneResolver (dialOk : String → Bool) (now : Int) (qps : Int)
    (r : Resolvers) (addr : String) : Resolvers :=
  if r.rmap.contains addr then r
  else
    match initializeResolver dialOk r.timeout now addr qps with
    | some res =>
      { r with rmap := r.rmap ++ [addr], pool := r.pool ++ [res],
               qps := if r.maxSet then r.qps else r.qps + qps }
    | none => r

/-- Resolvers.AddResolvers (src/resolvers.go line 124).  The guard in
the source tests qps == 0 (not qps <= 0) before iterating over the
addresses. -/
def Resolvers.AddResolvers (r : Resolvers) (dialOk : String → Bool) (now : Int)
    (qps : Int) (addrs : List String) : Resolvers × Option String :=
  if qps = 0 then
    (r, some "failed to provide a maximum number of queries per second greater than zero")
  else
    (addrs.foldl (addOneResolver dialOk now qps) r, none)

/-- resolver.stop (src/resolvers.go line 321): a no-op when the done
channel is already closed; otherwise closes it, drains the per-endpoint
queue and then the Exchange Table, failing and releasing every request
found in either. -/
def resolver.stop (r : resolver) : resolver × List REvent :=
  if r.done then (r, [])
  else
    ({ r with done := true, xchgQueue := [], xchgs := { r.xchgs with xchgs := [] } },
     (r.xchgQueue.flatMap fun req => [REvent.failedNoResponse req, REvent.released req]) ++
     ((r.xchgs.removeAll).1.flatMap fun req => [REvent.failedNoResponse req, REvent.released req]))

/-- Resolvers.Stop (src/resolvers.go line 148): a no-op when the done
channel is already closed; otherwise closes it, and for every endpoint
(detector included) decrements the aggregate rate unless an explicit
maximum was set, runs the endpoint drain, and finally releases the
selector.  The pool ingress queue is not drained here. -/
def Resolvers.Stop (r : Resolvers) : Resolvers × List REvent :=
  if r.done then (r, [])
  else
    let all := r.pool ++ r.detector.toList
    ({ r with
       done := true,
       qps := if r.maxSet then r.qps else r.qps - (all.map fun res => res.qps).sum,
       pool := r.pool.map fun res => (res.stop).1,
       detector := r.detector.map fun res => (res.stop).1,
       selClosed := true },
     all.flatMap fun res => (res.stop).2)

/-- resolver.query (src/resolvers.go line 342): when the endpoint is
already stopped the request is failed and released, otherwise it is
appended to the per-endpoint queue. -/
def resolver.query (r : resolver) (req : Request) : resolver × List REvent :=
  if r.done then (r, [REvent.failedNoResponse req, REvent.released req])
  else ({ r with xchgQueue := r.xchgQueue ++ [req] }, [])

/-- The admission step of enforceMaxQPS for one popped request
(src/resolvers.go lines 240 to 247): when the selector yields no
endpoint the request is failed and released, otherwise it is handed to
the chosen endpoint. -/
def admitRequest (res : Option resolver) (req : Request) : Option resolver × List REvent :=
  match res with
  | some r =>
    let p := r.query req
    (some p.1, p.2)
  | none => (none, [REvent.failedNoResponse req, REvent.released req])

/-- The reaction of the admission loop to its two signals
(src/resolvers.go lines 229 to 248): when the done channel is closed the
loop returns, leaving any request still in the ingress queue untouched
(none); otherwise one request is admitted. -/
def enforceMaxQPSStep (done : Bool) (res : Option resolver) (req : Request) :
    Option (Option resolver × List REvent) :=
  if done then none
  else some (admitRequest res req)

/-- resolver.writeNextMsg (src/resolvers.go line 353).  The write on the
connection is abstracted by the writeOk oracle.  A request whose context
is already canceled is failed without a write; otherwise exactly one
write is attempted, and on success plus successful table insertion the
deadline is set and the next eligible send time advances by the
inter-send interval, while a failed write or an insertion collision
fails the request. -/
def resolver.writeNextMsg (r : resolver) (writeOk : Bool) (now : Int) :
    resolver × List REvent :=
  if r.done then (r, [])
  else
    match r.xchgQueue with
    | [] => (r, [])
    | req :: rest =>
      let r1 := { r with xchgQueue := rest }
      if req.ctxCanceled then (r1, [REvent.failedNoResponse req, REvent.released req])
      else if writeOk then
        match r1.xchgs.add req with
        | some x =>
          ({ r1 with xchgs := x.updateTimestamp req.id req.name now, next := now + r1.inc },
           [REvent.wrote req.msg])
        | none => (r1, [REvent.wrote req.msg, REvent.failedNoResponse req, REvent.released req])
      else (r1, [REvent.wrote req.msg, REvent.failedNoResponse req, REvent.released req])

/-- One iteration of resolver.responses (src/resolvers.go line 381) on
one received datagram (none models a read error or a nil message).  A
message without questions is dropped; a message whose (id, first
question name) matches an Exchange Table entry either spawns one
reliable-transport retry (when truncated) or completes the request with
the message, bumps the statistics and releases it; a non-matching
message is silently discarded. -/
def resolver.responses (r : resolver) (recv : Option Msg) : resolver × List REvent :=
  match recv with
  | none => (r, [])
  | some m =>
    match m.question with
    | [] => (r, [])
    | q :: _ =>
      match r.xchgs.remove m.id q.name with
      | (none, _) => (r, [])
      | (some req, x) =>
        if m.truncated then ({ r with xchgs := x }, [REvent.spawnedTcp req])
        else ({ r with xchgs := x, statsCount := r.statsCount + 1 },
              [REvent.delivered req m, REvent.released req])

/-- resolver.tcpExchange (src/resolvers.go line 405): the synchronous
reliable-transport exchange, abstracted by its result (some m = the
exchange returned a message, none = it returned an error).  The received
message or a synthesized no-response is delivered, and the request is
released. -/
def resolver.tcpExchange (req : Request) (result : Option Msg) : List REvent :=
  match result with
  | some m => [REvent.delivered req m, REvent.released req]
  | none => [REvent.failedNoResponse req, REvent.released req]

/-- The fixed tick interval of the expiry sweeper, 100 milliseconds in
nanoseconds (src/resolvers.go line 420). -/
def sweepInterval : Int := 100000000

/-- One tick of resolver.timeouts (src/resolvers.go line 419): while the
endpoint runs, every Exchange Table entry past its deadline is removed,
failed with no-response, counted in the statistics and released. -/
def resolver.timeoutsTick (r : resolver) (now : Int) : resolver × List REvent :=
  if r.done then (r, [])
  else
    let p := r.xchgs.removeExpired now
    ({ r with xchgs := p.2, statsCount := r.statsCount + p.1.length },
     p.1.flatMap fun req => [REvent.failedNoResponse req, REvent.released req])

/-- The places a submitted query can be during its lifecycle: not yet
decided by Query, in the pool ingress queue, in one endpoint queue, in
one Exchange Table, handed to a reliable-transport retry task, finished
(terminal action performed), or abandoned in the ingress queue by pool
shutdown. -/
inductive LifePos where
  | start
  | ingress
  | rqueue
  | inXchg
  | tcp
  | finished
  | abandoned
  deriving DecidableEq

/-- One step of the lifecycle of a single request, labelled with the
number of terminal deliveries that step performs on its result channel.
Every constructor corresponds to one branch of the source, and its label
is computed from the embedded function for that branch. -/
inductive LifeStep : LifePos → Nat → LifePos → Prop where
  | queryNil (r : Resolvers) (c : Bool) (r1 : Resolvers) (out : List (Option Msg))
      (h : r.Query c none = some (r1, out)) :
      LifeStep LifePos.start out.length LifePos.finished
  | queryShort (r : Resolvers) (c : Bool) (m : Msg) (r1 : Resolvers) (out : List (Option Msg))
      (hdc : c = true ∨ r.done = true)
      (h : r.Query c (some m) = some (r1, out)) :
      LifeStep LifePos.start out.length LifePos.finished
  | queryQueued (r : Resolvers) (c : Bool) (m : Msg) (r1 : Resolvers) (out : List (Option Msg))
      (hc : c = false) (hd : r.done = false) (hq : m.question ≠ [])
      (h : r.Query c (some m) = some (r1, out)) :
      LifeStep LifePos.start out.length LifePos.ingress
  | admitNoEndpoint (req : Request) :
      LifeStep LifePos.ingress (reqDeliveries req (admitRequest none req).2) LifePos.finished
  | admitEndpointDown (res : resolver) (req : Request) (h : res.done = true) :
      LifeStep LifePos.ingress (reqDeliveries req (admitRequest (some res) req).2)
        LifePos.finished
  | admitEndpointUp (res : resolver) (req : Request) (h : res.done = false) :
      LifeStep LifePos.ingress (reqDeliveries req (admitRequest (some res) req).2)
        LifePos.rqueue
  | abandonedOnShutdown (res : Option resolver) (req : Request)
      (h : enforceMaxQPSStep true res req = none) :
      LifeStep LifePos.ingress 0 LifePos.abandoned
  | sendCtxCanceled (r : resolver) (writeOk : Bool) (now : Int) (req : Request)
      (rest : List Request)
      (hd : r.done = false) (hq : r.xchgQueue = req :: rest) (hc : req.ctxCanceled = true) :
      LifeStep LifePos.rqueue (reqDeliveries req (r.writeNextMsg writeOk now).2)
        LifePos.finished
  | sendWriteFail (r : resolver) (now : Int) (req : Request) (rest : List Request)
      (hd : r.done = false) (hq : r.xchgQueue = req :: rest) (hc : req.ctxCanceled = false) :
      LifeStep LifePos.rqueue (reqDeliveries req (r.writeNextMsg false now).2)
        LifePos.finished
  | sendCollision (r : resolver) (now : Int) (req : Request) (rest : List Request)
      (hd : r.done = false) (hq : r.xchgQueue = req :: rest) (hc : req.ctxCanceled = false)
      (hx : r.xchgs.add req = none) :
      LifeStep LifePos.rqueue (reqDeliveries req (r.writeNextMsg true now).2)
        LifePos.finished
  | sendOk (r : resolver) (now : Int) (req : Request) (rest : List Request) (x : XchgMgr)
      (hd : r.done = false) (hq : r.xchgQueue = req :: rest) (hc : req.ctxCanceled = false)
      (hx : r.xchgs.add req = some x) :
      LifeStep LifePos.rqueue (reqDeliveries req (r.writeNextMsg true now).2)
        LifePos.inXchg
  | stopDrainQueue (r : resolver) (req : Request)
      (hd : r.done = false)
      (hq : countReq req r.xchgQueue = 1)
      (hx : countReq req ((r.xchgs.removeAll).1) = 0) :
      LifeStep LifePos.rqueue (reqDeliveries req (r.stop).2) LifePos.finished
  | recvMatched (r : resolver) (m : Msg) (q : Question) (qs : List Question)
      (req : Request) (x : XchgMgr)
      (hq : m.question = q :: qs) (ht : m.truncated = false)
      (hr : r.xchgs.remove m.id q.name = (some req, x)) :
      LifeStep LifePos.inXchg (reqDeliveries req (r.responses (some m)).2) LifePos.finished
  | recvTruncated (r : resolver) (m : Msg) (q : Question) (qs : List Question)
      (req : Request) (x : XchgMgr)
      (hq : m.question = q :: qs) (ht : m.truncated = true)
      (hr : r.xchgs.remove m.id q.name = (some req, x)) :
      LifeStep LifePos.inXchg (reqDeliveries req (r.responses (some m)).2) LifePos.tcp
  | expiredEntry (r : resolver) (now : Int) (req : Request)
      (hd : r.done = false)
      (hc : countReq req ((r.xchgs.removeExpired now).1) = 1) :
      LifeStep LifePos.inXchg (reqDeliveries req (r.timeoutsTick now).2) LifePos.finished
  | stopDrainXchg (r : resolver) (req : Request)
      (hd : r.done = false)
      (hq : countReq req r.xchgQueue = 0)
      (hx : countReq req ((r.xchgs.removeAll).1) = 1) :
      LifeStep LifePos.inXchg (reqDeliveries req (r.stop).2) LifePos.finished
  | tcpDone (req : Request) (result : Option Msg) :
      LifeStep LifePos.tcp (reqDeliveries req (resolver.tcpExchange req result))
        LifePos.finished

/-- Several lifecycle steps in sequence, accumulating the number of
terminal deliveries performed along the way. -/
inductive Reaches : LifePos → Nat → LifePos → Prop where
  | refl (p : LifePos) : Reaches p 0 p
  | step {p q t : LifePos} {c n : Nat}
      (h1 : LifeStep p c q) (h2 : Reaches q n t) : Reaches p (c + n) t

/-- Terminal deliveries still owed to the request at each lifecycle
position: one everywhere except after the terminal action.  An abandoned
request also still owes one, which is exactly the delivery it never
receives. -/
def pendingDeliveries : LifePos → Nat
  | LifePos.finished => 0
  | _ => 1

/-- A sample question used by concrete witnesses. -/
def q0 : Question := { name := "example.com.", qtype := 1 }

/-- A sample outbound query message. -/
def m0 : Msg := { id := 7, question := [q0], truncated := false, rcode := 0, answer := [] }

/-- The Request that Query builds from m0 with a live context. -/
def req0 : Request :=
  { ctxCanceled := false, id := 7, name := RemoveLastDot q0.name, qtype := q0.qtype, msg := m0 }

/-- A sample truncated response matching m0. -/
def m0trunc : Msg := { id := 7, question := [q0], truncated := true, rcode := 0, answer := [] }

/-- A sample message with an empty question section. -/
def mEmptyQ : Msg := { id := 3, question := [], truncated := false, rcode := 0, answer := [] }

/-- A freshly initialized sample endpoint with an empty queue and
table. -/
def res5 : resolver :=
  { done := false, xchgQueue := [], xchgs := { timeout := DefaultTimeout, xchgs := [] },
    address := "8.8.8.8:53", qps := 10, inc := 100000000, next := 0, statsCount := 0 }

/-- The sample endpoint with req0 waiting in its send queue. -/
def res5q : resolver := { res5 with xchgQueue := [req0] }

/-- A sample endpoint whose Exchange Table holds req0 under its key with
deadline 1000. -/
def res4 : resolver :=
  { done := false, xchgQueue := [],
    xchgs := { timeout := DefaultTimeout,
               xchgs := [(xchgKey 7 q0.name, { req := req0, deadline := some 1000 })] },
    address := "9.9.9.9:53", qps := 10, inc := 100000000, next := 0, statsCount := 0 }

/-- A running pool with one endpoint and one request pending in the
ingress queue. -/
def poolC1 : Resolvers := { NewResolvers with queue := [req0], pool := [res5] }

/-- Terminal deliveries distribute over concatenation of event lists. -/
theorem reqDeliveries_append (req : Request) (l1 l2 : List REvent) :
    reqDeliveries req (l1 ++ l2) = reqDeliveries req l1 + reqDeliveries req l2 := by
  simp [reqDeliveries, List.filter_append]

/-- Failing and releasing every request of a list performs exactly one
terminal delivery per occurrence of the given request. -/
theorem reqDeliveries_failRelease (req : Request) (l : List Request) :
    reqDeliveries req (l.flatMap fun q => [REvent.failedNoResponse q, REvent.released q]) =
      countReq req l := by
  induction l with
  | nil => rfl
  | cons a t ih =>
    rw [List.flatMap_cons, reqDeliveries_append, ih]
    by_cases h : a = req
    · simp [reqDeliveries, countReq, isTerminalFor, h, List.filter_cons]
      omega
    · simp [reqDeliveries, countReq, isTerminalFor, h, List.filter_cons]

/-- Each lifecycle step performs exactly the number of terminal
deliveries it owes: the label plus the debt of the target equals the
debt of the source. -/
theorem lifeStep_count {p : LifePos} {c : Nat} {q : LifePos}
    (h : LifeStep p c q) : c + pendingDeliveries q = pendingDeliveries p := by
  cases h with
  | queryNil r c r1 out h =>
    simp [Resolvers.Query] at h
    simp [← h.2, pendingDeliveries]
  | queryShort r c m r1 out hdc h =>
    rcases hdc with hc | hd
    · simp [Resolvers.Query, hc] at h
      simp [← h.2, pendingDeliveries]
    · simp [Resolvers.Query, hd] at h
      simp [← h.2, pendingDeliveries]
  | queryQueued r c m r1 out hc hd hq h =>
    subst hc
    cases hm : m.question with
    | nil => exact absurd hm hq
    | cons qq qs =>
      simp [Resolvers.Query, hd, hm] at h
      simp [← h.2, pendingDeliveries]
  | admitNoEndpoint req =>
    simp [admitRequest, reqDeliveries, isTerminalFor, pendingDeliveries]
  | admitEndpointDown res req h =>
    simp [admitRequest, resolver.query, h, reqDeliveries, isTerminalFor, pendingDeliveries]
  | admitEndpointUp res req h =>
    simp [admitRequest, resolver.query, h, reqDeliveries, pendingDeliveries]
  | abandonedOnShutdown res req h =>
    simp [pendingDeliveries]
  | sendCtxCanceled r w now req rest hd hq hc =>
    simp [resolver.writeNextMsg, hd, hq, hc, reqDeliveries, isTerminalFor, pendingDeliveries]
  | sendWriteFail r now req rest hd hq hc =>
    simp [resolver.writeNextMsg, hd, hq, hc, reqDeliveries, isTerminalFor, pendingDeliveries]
  | sendCollision r now req rest hd hq hc hx =>
    simp [resolver.writeNextMsg, hd, hq, hc, hx, reqDeliveries, isTerminalFor,
      pendingDeliveries]
  | sendOk r now req rest x hd hq hc hx =>
    simp [resolver.writeNextMsg, hd, hq, hc, hx, reqDeliveries, isTerminalFor,
      pendingDeliveries]
  | stopDrainQueue r req hd hq hx =>
    simp [resolver.stop, hd, reqDeliveries_append, reqDeliveries_failRelease, hq, hx,
      pendingDeliveries]
  | recvMatched r m qq qs req x hq ht hr =>
    simp [resolver.responses, hq, hr, ht, reqDeliveries, isTerminalFor, pendingDeliveries]
  | recvTruncated r m qq qs req x hq ht hr =>
    simp [resolver.responses, hq, hr, ht, reqDeliveries, isTerminalFor, pendingDeliveries]
  | expiredEntry r now req hd hc =>
    simp [resolver.timeoutsTick, hd, reqDeliveries_failRelease, hc, pendingDeliveries]
  | stopDrainXchg r req hd hq hx =>
    simp [resolver.stop, hd, reqDeliveries_append, reqDeliveries_failRelease, hq, hx,
      pendingDeliveries]
  | tcpDone req result =>
    cases result <;>
      simp [resolver.tcpExchange, reqDeliveries, isTerminalFor, pendingDeliveries]

/-- Accumulated deliveries along any sequence of steps equal the debt
difference between its endpoints. -/
theorem reaches_count {p : LifePos} {n : Nat} {t : LifePos}
    (h : Reaches p n t) : n + pendingDeliveries t = pendingDeliveries p := by
  induction h with
  | refl p => simp
  | step h1 h2 ih =>
    have hs := lifeStep_count h1
    omega

/-- The stopped component of the endpoint drain always has its done
channel closed afterwards, whether or not it was closed before. -/
theorem resolver_stop_done (a : resolver) : ((a.stop).1).done = true := by
  by_cases h : a.done <;> simp [resolver.stop, h]

/-- Claim C3: for every call to Query with a non-nil message where the
pool is already shut down or the caller context is already canceled, the
message is sent back on the channel immediately with the no-response
result code and the pool state is unchanged, so nothing is appended to
the ingress queue, no send is attempted, and no Exchange Table entry is
created. -/
theorem query_shortcircuit (r : Resolvers) (c : Bool) (m : Msg)
    (h : r.done = true ∨ c = true) :
    r.Query c (some m) = some (r, [some { m with rcode := RcodeNoResponse }]) := by
  rcases h with h | h <;> simp [Resolvers.Query, h]

/-- Witness for query_shortcircuit: a shut-down pool answers a concrete
query immediately with the no-response code. -/
theorem query_shortcircuit_witness :
    Resolvers.Query { NewResolvers with done := true } false (some m0) =
      some ({ NewResolvers with done := true },
        [some { m0 with rcode := RcodeNoResponse }]) :=
  query_shortcircuit { NewResolvers with done := true } false m0 (Or.inl rfl)

/-- Claim C9: for every call to Query with a non-nil message whose
question section is empty, while the pool is running and the context is
live, the access of the first question panics (modelled as none), so the
submission API is not total over well-formed messages. -/
theorem query_empty_question_panics (r : Resolvers) (c : Bool) (m : Msg)
    (hd : r.done = false) (hc : c = false) (hq : m.question = []) :
    r.Query c (some m) = none := by
  subst hc
  simp [Resolvers.Query, hd, hq]

/-- Witness for query_empty_question_panics at a concrete message with
an empty question section. -/
theorem query_empty_question_panics_witness :
    Resolvers.Query NewResolvers false (some mEmptyQ) = none :=
  query_empty_question_panics NewResolvers false mEmptyQ rfl rfl rfl

/-- Claim C10: Query with a nil message sends nil on the result channel
immediately, with no no-response synthesis and nothing queued (the pool
state is unchanged), and consequently QueryBlocking with a nil message
and a live context returns a nil response with the query-failed
error. -/
theorem query_nil_message (r : Resolvers) (c : Bool) :
    r.Query c none = some (r, [none]) ∧
    Resolvers.QueryBlocking false none (BlockOutcome.received none) =
      (none, some QueryError.queryFailed) :=
  ⟨rfl, rfl⟩

/-- Claim C7 counterexample: a result that arrives with a non-nil but
empty response (empty answer section) is returned with no error at all,
not with the query-failed error the claim requires for nil-or-empty
responses. -/
theorem queryBlocking_empty_response_no_error :
    (Resolvers.QueryBlocking false (some m0) (BlockOutcome.received (some m0))).2 = none ∧
    m0.answer = [] :=
  ⟨rfl, rfl⟩

/-- Claim C7 (amended): QueryBlocking returns the original message with
the distinct context-expired error when the caller context is done at
entry or ends before a result arrives; a received nil response yields
the query-failed error; and any received non-nil response, even an empty
one, is returned with a nil error.  The two failure modes carry distinct
error values. -/
theorem queryBlocking_outcomes (msg : Option Msg) (outcome : BlockOutcome) :
    Resolvers.QueryBlocking true msg outcome = (msg, some QueryError.contextExpired) ∧
    Resolvers.QueryBlocking false msg BlockOutcome.ctxExpired =
      (msg, some QueryError.contextExpired) ∧
    Resolvers.QueryBlocking false msg (BlockOutcome.received none) =
      (none, some QueryError.queryFailed) ∧
    (∀ resp : Msg,
      Resolvers.QueryBlocking false msg (BlockOutcome.received (some resp)) =
        (some resp, none)) ∧
    QueryError.contextExpired ≠ QueryError.queryFailed :=
  ⟨rfl, rfl, rfl, fun _ => rfl, by simp⟩

/-- Claim C2: the guard of AddResolvers only rejects a rate of exactly
zero, so a negative rate slips through: the call returns no error, the
address is recorded, an endpoint with negative rate is added and the
aggregate rate drops below zero, contradicting the requirement that
every rate at most zero is rejected with no mutation.  The zero-rate
branch itself does behave as required. -/
theorem addResolvers_negative_rate_accepted :
    (NewResolvers.AddResolvers (fun _ => true) 0 (-1) ["8.8.8.8"]).2 = none ∧
    (NewResolvers.AddResolvers (fun _ => true) 0 (-1) ["8.8.8.8"]).1.rmap = ["8.8.8.8"] ∧
    (NewResolvers.AddResolvers (fun _ => true) 0 (-1) ["8.8.8.8"]).1.qps = -1 ∧
    ((NewResolvers.AddResolvers (fun _ => true) 0 (-1) ["8.8.8.8"]).1.pool.map
      fun res => res.qps) = [-1] ∧
    NewResolvers.AddResolvers (fun _ => true) 0 0 ["8.8.8.8"] =
      (NewResolvers,
       some "failed to provide a maximum number of queries per second greater than zero") :=
  ⟨rfl, rfl, rfl, rfl, rfl⟩

/-- Claim C8: Stop is idempotent.  The first call signals termination;
when the pool was running it closes every endpoint and releases the
selector; every later call returns the same state with no further
events, so there is no double drain and no double rate decrement. -/
theorem stop_idempotent (r : Resolvers) :
    Resolvers.Stop (Resolvers.Stop r).1 = ((Resolvers.Stop r).1, []) ∧
    (Resolvers.Stop r).1.done = true ∧
    (r.done = false →
      (∀ res ∈ (Resolvers.Stop r).1.pool, res.done = true) ∧
      (Resolvers.Stop r).1.selClosed = true) := by
  by_cases h : r.done
  · refine ⟨?_, ?_, ?_⟩ <;> simp [Resolvers.Stop, h]
  · refine ⟨?_, ?_, ?_⟩
    · simp [Resolvers.Stop, h]
    · simp [Resolvers.Stop, h]
    · intro _
      refine ⟨?_, ?_⟩
      · intro res hmem
        simp [Resolvers.Stop, h] at hmem
        obtain ⟨a, _, rfl⟩ := hmem
        exact resolver_stop_done a
      · simp [Resolvers.Stop, h]

/-- Witness for stop_idempotent at a concrete running pool: a second
Stop is a no-op and the selector was released by the first. -/
theorem stop_idempotent_witness :
    Resolvers.Stop (Resolvers.Stop poolC1).1 = ((Resolvers.Stop poolC1).1, []) ∧
    (Resolvers.Stop poolC1).1.selClosed = true :=
  ⟨(stop_idempotent poolC1).1, ((stop_idempotent poolC1).2.2 rfl).2⟩

/-- Claim C1 counterexample: a complete execution of the request
lifecycle with zero terminal deliveries exists — a concrete query is
queued on a running pool and then abandoned when the admission loop
observes shutdown, and Stop on a pool holding that request in its
ingress queue leaves the ingress queue untouched and performs no
terminal delivery for it. -/
theorem shutdown_drops_ingress_request :
    Reaches LifePos.start 0 LifePos.abandoned ∧
    (Resolvers.Stop poolC1).1.queue = [req0] ∧
    reqDeliveries req0 (Resolvers.Stop poolC1).2 = 0 := by
  refine ⟨?_, rfl, rfl⟩
  have hstep1 : LifeStep LifePos.start 0 LifePos.ingress := by
    have h : Resolvers.Query NewResolvers false (some m0) =
        some ({ NewResolvers with queue := [req0] }, []) := rfl
    exact LifeStep.queryQueued NewResolvers false m0 { NewResolvers with queue := [req0] }
      [] rfl rfl (by simp [m0]) h
  have hstep2 : LifeStep LifePos.ingress 0 LifePos.abandoned :=
    LifeStep.abandonedOnShutdown none req0 rfl
  exact Reaches.step hstep1 (Reaches.step hstep2 (Reaches.refl LifePos.abandoned))

/-- Claim C1 (amended): along every complete lifecycle of a submitted
query — normal match, truncation retry, expiry, send failure, no
endpoint available, cancellation, and the per-endpoint shutdown drains —
exactly one terminal delivery is performed; the single exception is a
query abandoned in the pool ingress queue by shutdown, which receives
zero deliveries.  No path ever delivers more than once. -/
theorem request_terminal_delivery_count (n : Nat) (t : LifePos)
    (h : Reaches LifePos.start n t) :
    (t = LifePos.finished → n = 1) ∧ (t = LifePos.abandoned → n = 0) := by
  have hc := reaches_count h
  constructor
  · intro ht
    subst ht
    simp [pendingDeliveries] at hc
    omega
  · intro ht
    subst ht
    simp [pendingDeliveries] at hc
    exact hc

/-- Witness for request_terminal_delivery_count: a concrete one-step
execution (submission against a canceled context) reaches the finished
position and the theorem yields its delivery count of one. -/
theorem request_terminal_delivery_count_witness : (1 : Nat) + 0 = 1 := by
  have hstep : LifeStep LifePos.start 1 LifePos.finished := by
    have h : Resolvers.Query NewResolvers true (some m0) =
        some (NewResolvers, [some { m0 with rcode := RcodeNoResponse }]) := rfl
    exact LifeStep.queryShort NewResolvers true m0 NewResolvers
      [some { m0 with rcode := RcodeNoResponse }] (Or.inl rfl) h
  have hr : Reaches LifePos.start (1 + 0) LifePos.finished :=
    Reaches.step hstep (Reaches.refl LifePos.finished)
  exact (request_terminal_delivery_count (1 + 0) LifePos.finished hr).1 rfl

/-- Claim C4: in the receive step, a message with at least one question
that matches an Exchange Table entry by (id, first question name) either
spawns exactly one reliable-transport retry without completing the
request (when truncated), whose outcome — received message on success,
no-response on failure — is one terminal delivery, or (when not
truncated) completes the request with the received message, removes the
entry and bumps the statistics; a non-matching message leaves the state
unchanged and produces no events. -/
theorem responses_match_behavior (r : resolver) (m : Msg) (q : Question)
    (qs : List Question) (hq : m.question = q :: qs) :
    (∀ req x, r.xchgs.remove m.id q.name = (some req, x) →
      (m.truncated = true →
        (r.responses (some m)).2 = [REvent.spawnedTcp req] ∧
        reqDeliveries req (r.responses (some m)).2 = 0) ∧
      (m.truncated = false →
        (r.responses (some m)).2 = [REvent.delivered req m, REvent.released req] ∧
        (r.responses (some m)).1.xchgs = x ∧
        (r.responses (some m)).1.statsCount = r.statsCount + 1) ∧
      (∀ result, reqDeliveries req (resolver.tcpExchange req result) = 1) ∧
      (∀ resp, REvent.delivered req resp ∈ resolver.tcpExchange req (some resp)) ∧
      REvent.failedNoResponse req ∈ resolver.tcpExchange req none) ∧
    ((r.xchgs.remove m.id q.name).1 = none → r.responses (some m) = (r, [])) := by
  constructor
  · intro req x hr
    refine ⟨?_, ?_, ?_, ?_, ?_⟩
    · intro ht
      constructor
      · simp [resolver.responses, hq, hr, ht]
      · simp [resolver.responses, hq, hr, ht, reqDeliveries, isTerminalFor]
    · intro ht
      refine ⟨?_, ?_, ?_⟩ <;> simp [resolver.responses, hq, hr, ht]
    · intro result
      cases result <;> simp [resolver.tcpExchange, reqDeliveries, isTerminalFor]
    · intro resp
      simp [resolver.tcpExchange]
    · simp [resolver.tcpExchange]
  · intro hnone
    rcases hfind : r.xchgs.xchgs.find?
        (fun p => decide (p.1 = xchgKey m.id q.name)) with _ | p
    · simp [resolver.responses, hq, XchgMgr.remove, hfind]
    · simp [XchgMgr.remove, hfind] at hnone

/-- Witness for responses_match_behavior: a concrete truncated response
matching the only table entry spawns one retry, and the retry performs
exactly one terminal delivery on failure. -/
theorem responses_match_behavior_witness :
    (res4.responses (some m0trunc)).2 = [REvent.spawnedTcp req0] ∧
    reqDeliveries req0 (resolver.tcpExchange req0 none) = 1 := by
  have h := responses_match_behavior res4 m0trunc q0 [] rfl
  have hr : res4.xchgs.remove m0trunc.id q0.name =
      (some req0, { timeout := DefaultTimeout, xchgs := [] }) := by decide
  exact ⟨((h.1 req0 _ hr).1 rfl).1, (h.1 req0 _ hr).2.2.1 none⟩

/-- Searching a concatenation whose first part has no hit continues in
the second part. -/
theorem find_append_of_none {α : Type} (p : α → Bool) (l1 l2 : List α)
    (h : l1.find? p = none) : (l1 ++ l2).find? p = l2.find? p := by
  induction l1 with
  | nil => simp
  | cons a t ih =>
    cases hpa : p a with
    | true => simp [List.find?_cons_of_pos _ hpa] at h
    | false =>
      rw [List.find?_cons_of_neg _ (by simp [hpa])] at h
      rw [List.cons_append, List.find?_cons_of_neg _ (by simp [hpa])]
      exact ih h

/-- After a successful insertion followed by the timestamp update, the
entry under the key of the request carries the deadline now plus the
configured timeout. -/
theorem deadline_after_add_update (x0 : XchgMgr) (req : Request) (now : Int) (x : XchgMgr)
    (h : x0.add req = some x) :
    ((x.updateTimestamp req.id req.name now).xchgs.find?
        fun p => decide (p.1 = xchgKey req.id req.name)).map (fun p => p.2.deadline) =
      some (some (now + x0.timeout)) := by
  rcases hfind : x0.xchgs.find? (fun p => decide (p.1 = xchgKey req.id req.name)) with _ | p
  · have hx : x = { x0 with xchgs := x0.xchgs ++
        [(xchgKey req.id req.name, { req := req, deadline := none })] } := by
      unfold XchgMgr.add at h
      rw [hfind] at h
      exact (Option.some.inj h).symm
    subst hx
    unfold XchgMgr.updateTimestamp
    simp only [List.map_append]
    rw [find_append_of_none]
    · simp
    · rw [List.find?_eq_none]
      intro b hb
      obtain ⟨a, ha, rfl⟩ := List.mem_map.mp hb
      have hna := (List.find?_eq_none.mp hfind) a ha
      simp only [decide_eq_true_eq] at hna
      simp [hna]
  · unfold XchgMgr.add at h
    rw [hfind] at h
    simp at h

/-- Claim C5: in the send step, a popped request whose context is
already canceled is failed with no-response without any write; otherwise
exactly one write is attempted, and on write success plus successful
insertion the deadline is set to now plus the configured timeout and the
next eligible send time advances to now plus the inter-send interval
with no terminal delivery, while on write failure or insertion collision
the request is failed immediately and the Exchange Table is left exactly
as it was (the existing entry is not overwritten). -/
theorem writeNextMsg_behavior (r : resolver) (writeOk : Bool) (now : Int)
    (req : Request) (rest : List Request)
    (hd : r.done = false) (hq : r.xchgQueue = req :: rest) :
    (req.ctxCanceled = true →
      (r.writeNextMsg writeOk now).2 = [REvent.failedNoResponse req, REvent.released req] ∧
      writeCount (r.writeNextMsg writeOk now).2 = 0) ∧
    (req.ctxCanceled = false → writeCount (r.writeNextMsg writeOk now).2 = 1) ∧
    (req.ctxCanceled = false → ∀ x, r.xchgs.add req = some x → writeOk = true →
      (r.writeNextMsg writeOk now).1.xchgs = x.updateTimestamp req.id req.name now ∧
      (((r.writeNextMsg writeOk now).1.xchgs.xchgs.find?
          fun p => decide (p.1 = xchgKey req.id req.name)).map fun p => p.2.deadline) =
        some (some (now + r.xchgs.timeout)) ∧
      (r.writeNextMsg writeOk now).1.next = now + r.inc ∧
      reqDeliveries req (r.writeNextMsg writeOk now).2 = 0) ∧
    (req.ctxCanceled = false → (writeOk = false ∨ r.xchgs.add req = none) →
      REvent.failedNoResponse req ∈ (r.writeNextMsg writeOk now).2 ∧
      (r.writeNextMsg writeOk now).1.xchgs = r.xchgs) := by
  refine ⟨?_, ?_, ?_, ?_⟩
  · intro hc
    constructor
    · simp [resolver.writeNextMsg, hd, hq, hc]
    · simp [resolver.writeNextMsg, hd, hq, hc, writeCount]
  · intro hc
    cases writeOk with
    | false => simp [resolver.writeNextMsg, hd, hq, hc, writeCount]
    | true =>
      rcases hadd : r.xchgs.add req with _ | x <;>
        simp [resolver.writeNextMsg, hd, hq, hc, hadd, writeCount]
  · intro hc x hadd hw
    subst hw
    refine ⟨?_, ?_, ?_, ?_⟩
    · simp [resolver.writeNextMsg, hd, hq, hc, hadd]
    · have hlook := deadline_after_add_update r.xchgs req now x hadd
      have hred : (r.writeNextMsg true now).1.xchgs =
          x.updateTimestamp req.id req.name now := by
        simp [resolver.writeNextMsg, hd, hq, hc, hadd]
      rw [hred]
      exact hlook
    · simp [resolver.writeNextMsg, hd, hq, hc, hadd]
    · simp [resolver.writeNextMsg, hd, hq, hc, hadd, reqDeliveries, isTerminalFor]
  · intro hc hor
    rcases hor with hw | hadd
    · subst hw
      constructor
      · simp [resolver.writeNextMsg, hd, hq, hc]
      · simp [resolver.writeNextMsg, hd, hq, hc]
    · cases writeOk with
      | false =>
        constructor
        · simp [resolver.writeNextMsg, hd, hq, hc]
        · simp [resolver.writeNextMsg, hd, hq, hc]
      | true =>
        constructor
        · simp [resolver.writeNextMsg, hd, hq, hc, hadd]
        · simp [resolver.writeNextMsg, hd, hq, hc, hadd]

/-- Witness for writeNextMsg_behavior at a concrete endpoint and
request: exactly one write happens, and the next eligible send time
advances by the inter-send interval. -/
theorem writeNextMsg_behavior_witness :
    writeCount (res5q.writeNextMsg true 0).2 = 1 ∧
    (res5q.writeNextMsg true 0).1.next = 0 + res5q.inc := by
  have h := writeNextMsg_behavior res5q true 0 req0 [] rfl rfl
  exact ⟨h.2.1 rfl, (h.2.2.1 rfl _ rfl rfl).2.2.1⟩

/-- Claim C6: the expiry sweeper ticks on a fixed 100 millisecond
interval; when the entries under a key all carry deadline d, some tick
at most one interval past d removes them, fails them with no-response,
and afterwards the key can no longer be matched by a late response — so
a sent request with deadline sent-time plus timeout terminates within
timeout plus the sweep interval. -/
theorem expiry_sweep_behavior (r : resolver) (t0 d : Int) (id : Nat) (name : String)
    (hd : r.done = false)
    (hstart : t0 ≤ d)
    (hkey : ∀ p ∈ r.xchgs.xchgs, p.1 = xchgKey id name → p.2.deadline = some d)
    (hmem : ∃ p ∈ r.xchgs.xchgs, p.1 = xchgKey id name) :
    sweepInterval = 100000000 ∧
    ∃ k : Nat,
      d < t0 + k * sweepInterval ∧
      t0 + k * sweepInterval ≤ d + sweepInterval ∧
      (∃ p ∈ r.xchgs.xchgs, p.1 = xchgKey id name ∧
        REvent.failedNoResponse p.2.req ∈ (r.timeoutsTick (t0 + k * sweepInterval)).2) ∧
      ((r.timeoutsTick (t0 + k * sweepInterval)).1.xchgs.remove id name).1 = none := by
  have hgen1 : ∀ t : Int, d < t →
      ∃ p ∈ r.xchgs.xchgs, p.1 = xchgKey id name ∧
        REvent.failedNoResponse p.2.req ∈ (r.timeoutsTick t).2 := by
    intro t ht
    obtain ⟨p, hp, hpk⟩ := hmem
    refine ⟨p, hp, hpk, ?_⟩
    have hexp : isExpired p.2 t = true := by
      simp only [isExpired, hkey p hp hpk, decide_eq_true_eq]
      exact ht
    simp only [resolver.timeoutsTick, hd, Bool.false_eq_true, if_false,
      XchgMgr.removeExpired]
    refine List.mem_flatMap.mpr ⟨p.2.req, ?_, by simp⟩
    exact List.mem_map.mpr ⟨p, List.mem_filter.mpr ⟨hp, hexp⟩, rfl⟩
  have hgen2 : ∀ t : Int, d < t →
      ((r.timeoutsTick t).1.xchgs.remove id name).1 = none := by
    intro t ht
    have hstate : (r.timeoutsTick t).1.xchgs.xchgs =
        r.xchgs.xchgs.filter (fun p => ! isExpired p.2 t) := by
      simp [resolver.timeoutsTick, hd, XchgMgr.removeExpired]
    have hfind : ((r.timeoutsTick t).1.xchgs.xchgs.find?
        fun p => decide (p.1 = xchgKey id name)) = none := by
      rw [hstate, List.find?_eq_none]
      intro b hb
      simp only [decide_eq_true_eq]
      intro hpk
      have hmemb := (List.mem_filter.mp hb).1
      have hnexp := (List.mem_filter.mp hb).2
      have hdl := hkey b hmemb hpk
      simp only [isExpired, hdl, decide_eq_true_eq, Bool.not_eq_eq_eq_not,
        Bool.not_true, decide_eq_false_iff_not] at hnexp
      exact hnexp ht
    unfold XchgMgr.remove
    rw [hfind]
  refine ⟨rfl, ((d - t0).toNat / 100000000) + 1, ?_, ?_,
    hgen1 _ (by simp only [sweepInterval]; omega),
    hgen2 _ (by simp only [sweepInterval]; omega)⟩
  · simp only [sweepInterval]
    omega
  · simp only [sweepInterval]
    omega

/-- Witness for expiry_sweep_behavior at a concrete endpoint whose only
table entry carries deadline 1000 with the sweeper started at 0. -/
theorem expiry_sweep_behavior_witness : sweepInterval = 100000000 :=
  (expiry_sweep_behavior res4 0 1000 7 q0.name rfl (by decide) (by decide) (by decide)).1

end Resolve
